import Mathlib

/-!
Verification of the article-injections form layer of MonitoRSS's control
panel: the data model of injections and selectors, the yup `formSchema`
validation (including the per-injection duplicate-label test), the
submit/reset/dirty-baseline flow, the selector append/delete operations,
the preview-input memo, and the thin `updateFeed` REST client.
-/

namespace ArticleInjections

/-- A selector row: one CSS-selector-to-placeholder mapping, as in the
selector objects of `formSchema` (fields `id`, `label`, `cssSelector`). -/
structure Selector where
  id : String
  label : String
  cssSelector : String
deriving DecidableEq, Repr

/-- One article injection: fields `id`, `sourceField`, `selectors`, as in
the injection objects of `formSchema`. -/
structure Injection where
  id : String
  sourceField : String
  selectors : List Selector
deriving DecidableEq, Repr

/-- The labels of an injection's selectors, in order: the
`selectors.map((s) => s.label)` list built inside the unique test. -/
def labelsOf (inj : Injection) : List String :=
  inj.selectors.map (fun s => s.label)

/-- The body of the yup test "unique" on a selector's `label`:
`!names.length || names.filter((n) => n === value).length === 1`, where
`names` are the labels of the enclosing injection (the test's
`context.from?.[1].value`). Returns `true` when the test passes. -/
def uniqueLabelTest (inj : Injection) (value : String) : Bool :=
  (labelsOf inj).isEmpty || ((labelsOf inj).filter (fun n => n == value)).length == 1

/-- Whether validation attaches the "Cannot have duplicate placeholder
labels" error to this selector's `label` field: the unique test fails. -/
def hasDuplicateLabelError (inj : Injection) (s : Selector) : Bool :=
  !(uniqueLabelTest inj s.label)

/-- Validity of one selector object under `formSchema`: `id` required,
`label` required and passing the unique test, `cssSelector` required
(yup `string().required()` rejects the empty string). -/
def selectorValid (inj : Injection) (s : Selector) : Bool :=
  s.id != "" && s.label != "" && uniqueLabelTest inj s.label && s.cssSelector != ""

/-- Validity of one injection object under `formSchema`: `id` and
`sourceField` required, `selectors` required with `.min(1)`, and every
selector valid. -/
def injectionValid (inj : Injection) : Bool :=
  inj.id != "" && inj.sourceField != "" && decide (1 ≤ inj.selectors.length) &&
    inj.selectors.all (selectorValid inj)

/-- Validity of the whole form value under `formSchema`. -/
def formValid (injections : List Injection) : Bool :=
  injections.all injectionValid

/-- An element of a list that occurs by index equals `getD` there. -/
theorem getD_eq_get (l : List String) (n : Nat) (h : n < l.length) :
    l.getD n "" = l.get ⟨n, h⟩ := by
  induction l generalizing n with
  | nil => simp at h
  | cons a t ih =>
    cases n with
    | zero => rfl
    | succ m => simpa using ih m (Nat.lt_of_succ_lt_succ h)

/-- A value read off a list by `getD` at a valid index is a member. -/
theorem mem_of_getD (l : List String) (n : Nat) (h : n < l.length) (v : String)
    (hv : l.getD n "" = v) : v ∈ l := by
  induction l generalizing n with
  | nil => simp at h
  | cons a t ih =>
    cases n with
    | zero => exact hv ▸ List.mem_cons_self a t
    | succ m =>
      exact List.mem_cons_of_mem a (ih m (Nat.lt_of_succ_lt_succ h) hv)

/-- A value occurring at two distinct valid indices has count at least 2. -/
theorem two_le_count_of_getD (l : List String) (v : String) :
    ∀ i j : Nat, i < j → j < l.length →
      l.getD i "" = v → l.getD j "" = v → 2 ≤ l.count v := by
  induction l with
  | nil => intro i j _ hj _ _; simp at hj
  | cons a t ih =>
    intro i j hij hj hi hjv
    cases j with
    | zero => exact absurd hij (Nat.not_lt_zero i)
    | succ m =>
      have hm : m < t.length := Nat.lt_of_succ_lt_succ hj
      cases i with
      | zero =>
        have ha : a = v := hi
        have hvt : v ∈ t := mem_of_getD t m hm v hjv
        have h1 : 1 ≤ t.count v := List.one_le_count_iff.mpr hvt
        subst ha
        rw [List.count_cons_self]
        omega
      | succ k =>
        have h2 : 2 ≤ t.count v :=
          ih k m (Nat.lt_of_succ_lt_succ hij) hm hi hjv
        rw [List.count_cons]
        omega

/-- The filter in the unique test counts occurrences of `value`. -/
theorem filter_length_eq_count (names : List String) (v : String) :
    (names.filter (fun n => n == v)).length = names.count v := by
  rw [List.count_eq_countP, List.countP_eq_length_filter]

/-- Reading the label list at a selector's position gives that selector's
label. -/
theorem labelsOf_getD (inj : Injection) (i : Fin inj.selectors.length) :
    (labelsOf inj).getD i "" = (inj.selectors.get i).label := by
  have hlen : (i : Nat) < (labelsOf inj).length := by
    simp [labelsOf]
  rw [getD_eq_get _ _ hlen]
  simp [labelsOf]

/-- A label occurring at least twice in an injection fails the unique
test. -/
theorem uniqueLabelTest_eq_false_of_two_le (inj : Injection) (v : String)
    (h2 : 2 ≤ (labelsOf inj).count v) : uniqueLabelTest inj v = false := by
  have hvmem : v ∈ labelsOf inj := List.count_pos_iff.mp (by omega)
  have hne : labelsOf inj ≠ [] := List.ne_nil_of_mem hvmem
  have hcnt : ((labelsOf inj).filter (fun n => n == v)).length ≠ 1 := by
    rw [filter_length_eq_count]; omega
  unfold uniqueLabelTest
  cases hE : (labelsOf inj).isEmpty with
  | true => exact absurd (List.isEmpty_iff.mp hE) hne
  | false => simp [hcnt]

/-- A label occurring exactly once in an injection passes the unique
test. -/
theorem uniqueLabelTest_eq_true_of_count_one (inj : Injection) (v : String)
    (h1 : (labelsOf inj).count v = 1) : uniqueLabelTest inj v = true := by
  unfold uniqueLabelTest
  rw [filter_length_eq_count, h1]
  simp

/-- Claim C1: two selectors at distinct positions of one injection holding
the identical label (case-sensitive) both receive the duplicate-label
error; a label that occurs exactly once inside its own injection receives
no duplicate-label error even when a selector of a different injection
carries the same label. -/
theorem duplicate_label_scoped_per_injection :
    (∀ (inj : Injection) (i j : Fin inj.selectors.length), i ≠ j →
      (inj.selectors.get i).label = (inj.selectors.get j).label →
      hasDuplicateLabelError inj (inj.selectors.get i) = true ∧
      hasDuplicateLabelError inj (inj.selectors.get j) = true) ∧
    (∀ (inj1 inj2 : Injection) (s1 s2 : Selector), s1 ∈ inj1.selectors →
      s2 ∈ inj2.selectors → s1.label = s2.label →
      (labelsOf inj1).count s1.label = 1 → (labelsOf inj2).count s2.label = 1 →
      hasDuplicateLabelError inj1 s1 = false ∧
      hasDuplicateLabelError inj2 s2 = false) := by
  constructor
  · intro inj i j hij hlab
    have hvne : (i : Nat) ≠ (j : Nat) := fun h => hij (Fin.ext h)
    have hjlen : (j : Nat) < (labelsOf inj).length := by
      simp [labelsOf]
    have hilen : (i : Nat) < (labelsOf inj).length := by
      simp [labelsOf]
    have hcard : 2 ≤ (labelsOf inj).count (inj.selectors.get i).label := by
      rcases Nat.lt_or_gt_of_ne hvne with hlt | hgt
      · refine two_le_count_of_getD (labelsOf inj) _ i j hlt hjlen ?_ ?_
        · exact labelsOf_getD inj i
        · rw [labelsOf_getD inj j]; exact hlab.symm
      · refine two_le_count_of_getD (labelsOf inj) _ j i hgt hilen ?_ ?_
        · rw [labelsOf_getD inj j]; exact hlab.symm
        · exact labelsOf_getD inj i
    have hfail := uniqueLabelTest_eq_false_of_two_le inj _ hcard
    have hfail2 : uniqueLabelTest inj (inj.selectors.get j).label = false :=
      hlab ▸ hfail
    constructor
    · unfold hasDuplicateLabelError; rw [hfail]; rfl
    · unfold hasDuplicateLabelError; rw [hfail2]; rfl
  · intro inj1 inj2 s1 s2 _ _ _ hc1 hc2
    exact ⟨by simp [hasDuplicateLabelError,
        uniqueLabelTest_eq_true_of_count_one inj1 s1.label hc1],
      by simp [hasDuplicateLabelError,
        uniqueLabelTest_eq_true_of_count_one inj2 s2.label hc2]⟩

/-- A concrete injection with two selectors sharing the label "img". -/
def injDupExample : Injection :=
  { id := "i1", sourceField := "title",
    selectors := [{ id := "s1", label := "img", cssSelector := "img" },
                  { id := "s2", label := "img", cssSelector := "a" }] }

/-- A concrete injection whose single selector is labelled "img". -/
def injSingleA : Injection :=
  { id := "iA", sourceField := "title",
    selectors := [{ id := "sA", label := "img", cssSelector := "img" }] }

/-- A second concrete injection whose single selector also carries the
label "img". -/
def injSingleB : Injection :=
  { id := "iB", sourceField := "description",
    selectors := [{ id := "sB", label := "img", cssSelector := "a" }] }

/-- Witness for duplicate_label_scoped_per_injection at concrete inputs:
both duplicated selectors are flagged, and the cross-injection repetition
is not. -/
theorem duplicate_label_scoped_per_injection_witness :
    hasDuplicateLabelError injDupExample
        (injDupExample.selectors.get ⟨0, by decide⟩) = true ∧
    hasDuplicateLabelError injDupExample
        (injDupExample.selectors.get ⟨1, by decide⟩) = true ∧
    hasDuplicateLabelError injSingleA
        { id := "sA", label := "img", cssSelector := "img" } = false ∧
    hasDuplicateLabelError injSingleB
        { id := "sB", label := "img", cssSelector := "a" } = false := by
  have h := duplicate_label_scoped_per_injection
  have hA := h.1 injDupExample ⟨0, by decide⟩ ⟨1, by decide⟩ (by decide) (by decide)
  have hB := h.2 injSingleA injSingleB
    { id := "sA", label := "img", cssSelector := "img" }
    { id := "sB", label := "img", cssSelector := "a" }
    (by decide) (by decide) (by decide) (by decide) (by decide)
  exact ⟨hA.1, hA.2, hB.1, hB.2⟩

/-- Claim C10: the unique-label outcome for a label value, and hence the
duplicate-label flag of any selector, depends only on the multiset of
label values of the enclosing injection; permuting the selectors or
changing their `cssSelector` or `id` fields leaves the label multiset
unchanged, so the outcome is invariant under those transformations. -/
theorem dup_flag_depends_only_on_label_multiset
    (inj1 inj2 : Injection) (v : String) (s : Selector)
    (h : ((labelsOf inj1 : List String) : Multiset String) = labelsOf inj2) :
    uniqueLabelTest inj1 v = uniqueLabelTest inj2 v ∧
    hasDuplicateLabelError inj1 s = hasDuplicateLabelError inj2 s := by
  have hperm : (labelsOf inj1).Perm (labelsOf inj2) := Multiset.coe_eq_coe.mp h
  have hlen := hperm.length_eq
  have hkey : ∀ w : String, uniqueLabelTest inj1 w = uniqueLabelTest inj2 w := by
    intro w
    have hcnt : (labelsOf inj1).countP (fun n => n == w) =
        (labelsOf inj2).countP (fun n => n == w) := hperm.countP_eq _
    have hE : (labelsOf inj1).isEmpty = (labelsOf inj2).isEmpty := by
      cases h1 : labelsOf inj1 with
      | nil =>
        cases h2 : labelsOf inj2 with
        | nil => rfl
        | cons b u => rw [h1, h2] at hlen; simp at hlen
      | cons a t =>
        cases h2 : labelsOf inj2 with
        | nil => rw [h1, h2] at hlen; simp at hlen
        | cons b u => rfl
    unfold uniqueLabelTest
    rw [← List.countP_eq_length_filter, ← List.countP_eq_length_filter, hcnt, hE]
  exact ⟨hkey v, by simp [hasDuplicateLabelError, hkey s.label]⟩

/-- A concrete injection with two selectors labelled "x" and "y". -/
def injPermA : Injection :=
  { id := "p1", sourceField := "title",
    selectors := [{ id := "a1", label := "x", cssSelector := "img" },
                  { id := "a2", label := "y", cssSelector := "a" }] }

/-- The same labels in swapped order with different ids and css
selectors. -/
def injPermB : Injection :=
  { id := "p2", sourceField := "title",
    selectors := [{ id := "b1", label := "y", cssSelector := "div" },
                  { id := "b2", label := "x", cssSelector := "span" }] }

/-- Witness for dup_flag_depends_only_on_label_multiset at concrete
permuted injections. -/
theorem dup_flag_depends_only_on_label_multiset_witness :
    uniqueLabelTest injPermA "x" = uniqueLabelTest injPermB "x" ∧
    hasDuplicateLabelError injPermA
        { id := "a1", label := "x", cssSelector := "img" } =
      hasDuplicateLabelError injPermB
        { id := "a1", label := "x", cssSelector := "img" } :=
  dup_flag_depends_only_on_label_multiset injPermA injPermB "x"
    { id := "a1", label := "x", cssSelector := "img" } (by decide)

/-- The form state held by react-hook-form: the current values together
with the default-values baseline that `reset` replaces and dirty checking
compares against. -/
structure FormState where
  values : List Injection
  baseline : List Injection
deriving DecidableEq, Repr

/-- react-hook-form's isDirty: the current values differ from the
baseline. -/
def isDirty (st : FormState) : Bool := st.values != st.baseline

/-- The payload `{ articleInjections: data.injections }` built in
`onSubmit`. -/
structure UpdateData where
  articleInjections : List Injection
deriving DecidableEq, Repr

/-- The argument `{ feedId: userFeed.id, data: { articleInjections } }`
passed to the update client's `mutateAsync`. -/
structure UpdateArgs where
  feedId : String
  data : UpdateData
deriving DecidableEq, Repr

/-- Outcome of one call to the remote update client: resolves, or raises
with a message. -/
inductive RemoteResult where
  | ok
  | error (msg : String)
deriving DecidableEq, Repr

/-- Observable outcome of one submit attempt: the resulting form state,
the remote calls issued, and the notifications reported. -/
structure SubmitResult where
  state : FormState
  remoteCalls : List UpdateArgs
  successNotified : Bool
  errorNotified : Option String
deriving DecidableEq, Repr

/-- The submit path: `handleSubmit(onSubmit)` first validates the values
against `formSchema`; when invalid, `onSubmit` is not called and no remote
call happens. When valid, `onSubmit` awaits
`mutateAsync({ feedId, data: { articleInjections } })`; on success it
calls `reset(data)` (values and baseline both become the submitted data)
and notifies success; on a raised error it notifies the error with the
failure's message and leaves the form state untouched. -/
def submitForm (feedId : String) (remote : UpdateArgs → RemoteResult)
    (st : FormState) : SubmitResult :=
  if formValid st.values then
    let req : UpdateArgs :=
      { feedId := feedId, data := { articleInjections := st.values } }
    match remote req with
    | RemoteResult.ok =>
        { state := { values := st.values, baseline := st.values },
          remoteCalls := [req], successNotified := true, errorNotified := none }
    | RemoteResult.error msg =>
        { state := st, remoteCalls := [req], successNotified := false,
          errorNotified := some msg }
  else
    { state := st, remoteCalls := [], successNotified := false,
      errorNotified := none }

/-- Claim C2: when some injection of the form state has an empty selector
sequence, validation fails (`selectors` carries `.min(1)`), the remote
update client is never invoked, and the state is unchanged. -/
theorem empty_selectors_blocks_submit (feedId : String)
    (remote : UpdateArgs → RemoteResult) (st : FormState) (inj : Injection)
    (hmem : inj ∈ st.values) (hempty : inj.selectors = []) :
    formValid st.values = false ∧
    (submitForm feedId remote st).remoteCalls = [] ∧
    (submitForm feedId remote st).state = st := by
  have hinv : injectionValid inj = false := by
    unfold injectionValid
    rw [hempty]
    simp
  have hform : formValid st.values = false := by
    cases hf : formValid st.values with
    | false => rfl
    | true =>
      have hall := List.all_eq_true.mp hf inj hmem
      rw [hinv] at hall
      exact absurd hall (by simp)
  refine ⟨hform, ?_, ?_⟩ <;> simp [submitForm, hform]

/-- A form state whose only injection has no selectors. -/
def emptySelectorsState : FormState :=
  { values := [{ id := "e1", sourceField := "title", selectors := [] }],
    baseline := [] }

/-- Witness for empty_selectors_blocks_submit at a concrete state. -/
theorem empty_selectors_blocks_submit_witness :
    formValid emptySelectorsState.values = false ∧
    (submitForm "feed1" (fun _ => RemoteResult.ok)
        emptySelectorsState).remoteCalls = [] ∧
    (submitForm "feed1" (fun _ => RemoteResult.ok)
        emptySelectorsState).state = emptySelectorsState :=
  empty_selectors_blocks_submit "feed1" (fun _ => RemoteResult.ok)
    emptySelectorsState
    { id := "e1", sourceField := "title", selectors := [] } (by decide) rfl

/-- Claim C3: a validation-passing submit issues exactly one remote call
keyed by the feed id with payload `{ articleInjections := values }`; when
the client call succeeds, the baseline is reset to the just-submitted
values, the state is no longer dirty, and success is notified. -/
theorem submit_success_resets_baseline (feedId : String)
    (remote : UpdateArgs → RemoteResult) (st : FormState)
    (hvalid : formValid st.values = true)
    (hok : remote { feedId := feedId, data := { articleInjections := st.values } } =
      RemoteResult.ok) :
    (submitForm feedId remote st).remoteCalls =
      [{ feedId := feedId, data := { articleInjections := st.values } }] ∧
    (submitForm feedId remote st).state.baseline = st.values ∧
    (submitForm feedId remote st).state.values = st.values ∧
    isDirty (submitForm feedId remote st).state = false ∧
    (submitForm feedId remote st).successNotified = true ∧
    (submitForm feedId remote st).errorNotified = none := by
  simp [submitForm, hvalid, hok, isDirty]

/-- A concrete valid injection. -/
def validInjection : Injection :=
  { id := "vi", sourceField := "title",
    selectors := [{ id := "vs", label := "img", cssSelector := "img" }] }

/-- A concrete dirty form state passing validation. -/
def validState : FormState :=
  { values := [validInjection], baseline := [] }

/-- Witness for submit_success_resets_baseline at a concrete state. -/
theorem submit_success_resets_baseline_witness :
    (submitForm "feed1" (fun _ => RemoteResult.ok) validState).state.baseline =
      validState.values ∧
    isDirty (submitForm "feed1" (fun _ => RemoteResult.ok) validState).state =
      false ∧
    (submitForm "feed1" (fun _ => RemoteResult.ok)
        validState).successNotified = true := by
  have h := submit_success_resets_baseline "feed1" (fun _ => RemoteResult.ok)
    validState (by decide) rfl
  exact ⟨h.2.1, h.2.2.2.1, h.2.2.2.2.1⟩

/-- Claim C4: when the remote call raises, the form state (values,
baseline, hence the dirty flag) is exactly what it was before the submit
attempt, an error notification carries the failure's message, and exactly
one remote call was made (no retry). -/
theorem submit_failure_preserves_state (feedId : String)
    (remote : UpdateArgs → RemoteResult) (st : FormState) (msg : String)
    (hvalid : formValid st.values = true)
    (herr : remote { feedId := feedId, data := { articleInjections := st.values } } =
      RemoteResult.error msg) :
    (submitForm feedId remote st).state = st ∧
    isDirty (submitForm feedId remote st).state = isDirty st ∧
    (submitForm feedId remote st).errorNotified = some msg ∧
    (submitForm feedId remote st).remoteCalls =
      [{ feedId := feedId, data := { articleInjections := st.values } }] ∧
    (submitForm feedId remote st).successNotified = false := by
  simp [submitForm, hvalid, herr]

/-- Witness for submit_failure_preserves_state at a concrete state. -/
theorem submit_failure_preserves_state_witness :
    (submitForm "feed1" (fun _ => RemoteResult.error "boom")
        validState).state = validState ∧
    (submitForm "feed1" (fun _ => RemoteResult.error "boom")
        validState).errorNotified = some "boom" := by
  have h := submit_failure_preserves_state "feed1"
    (fun _ => RemoteResult.error "boom") validState "boom" (by decide) rfl
  exact ⟨h.1, h.2.2.1⟩

/-- The selector object appended by the "Add selector" button:
`append({ id: v4(), label: "", cssSelector: "" })`, with `fid` standing
for the freshly generated uuid. -/
def newSelector (fid : String) : Selector :=
  { id := fid, label := "", cssSelector := "" }

/-- The append operation of the injection group controller:
react-hook-form's `append` pushes the new selector at the end of the
field array; no guard bounds the count. -/
def appendSelector (inj : Injection) (fid : String) : Injection :=
  { inj with selectors := inj.selectors ++ [newSelector fid] }

/-- All ids present in a form value: every injection's id and the ids of
its selectors. -/
def allFormIds (form : List Injection) : List String :=
  form.flatMap (fun inj => inj.id :: inj.selectors.map (fun s => s.id))

/-- Claim C6: appending a selector to an injection extends its selector
sequence by exactly one entry at the end, with empty label and empty
cssSelector and the freshly generated id; the pre-existing selectors are
unchanged, and (given uuid freshness) the new id differs from every id
already present in the form. -/
theorem append_selector_spec (form : List Injection) (inj : Injection)
    (fid : String) (hmem : inj ∈ form) (hfresh : fid ∉ allFormIds form) :
    (appendSelector inj fid).selectors =
      inj.selectors ++ [{ id := fid, label := "", cssSelector := "" }] ∧
    (appendSelector inj fid).selectors.length = inj.selectors.length + 1 ∧
    (appendSelector inj fid).selectors.take inj.selectors.length =
      inj.selectors ∧
    fid ≠ inj.id ∧ ∀ s ∈ inj.selectors, fid ≠ s.id := by
  have hids : ∀ x, x ∈ inj.id :: inj.selectors.map (fun s => s.id) →
      x ∈ allFormIds form := by
    intro x hx
    exact List.mem_flatMap.mpr ⟨inj, hmem, hx⟩
  refine ⟨rfl, by simp [appendSelector], ?_, ?_, ?_⟩
  · simp [appendSelector]
  · intro h
    exact hfresh (h ▸ hids inj.id (List.mem_cons_self _ _))
  · intro s hs h
    exact hfresh
      (h ▸ hids s.id (List.mem_cons_of_mem _ (List.mem_map_of_mem _ hs)))

/-- Witness for append_selector_spec at a concrete form. -/
theorem append_selector_spec_witness :
    (appendSelector validInjection "fresh-id").selectors =
      validInjection.selectors ++
        [{ id := "fresh-id", label := "", cssSelector := "" }] ∧
    (appendSelector validInjection "fresh-id").selectors.length =
      validInjection.selectors.length + 1 := by
  have h := append_selector_spec [validInjection] validInjection "fresh-id"
    (by decide) (by decide)
  exact ⟨h.1, h.2.1⟩

/-- The delete control of a selector row: the close button carries
`isDisabled=(selectors.length === 1)` and otherwise invokes
`remove(selectorIndex)` on the field array, so the reachable delete
action is the identity at length one. -/
def deleteSelectorAction (selectors : List Selector) (i : Nat) :
    List Selector :=
  if selectors.length == 1 then selectors else selectors.eraseIdx i

/-- Claim C7: deleting at a rendered row position is a no-op exactly when
one selector remains, removes one entry otherwise, and in either case
never empties the selector sequence. -/
theorem delete_last_selector_noop (selectors : List Selector) (i : Nat)
    (hi : i < selectors.length) :
    (selectors.length = 1 → deleteSelectorAction selectors i = selectors) ∧
    (selectors.length ≠ 1 →
      (deleteSelectorAction selectors i).length = selectors.length - 1) ∧
    deleteSelectorAction selectors i ≠ [] := by
  by_cases h1 : selectors.length = 1
  · have hne : selectors ≠ [] := by
      intro h
      rw [h] at h1
      simp at h1
    refine ⟨fun _ => ?_, fun hc => absurd h1 hc, ?_⟩
    · simp [deleteSelectorAction, h1]
    · simpa [deleteSelectorAction, h1] using hne
  · have hbeq : (selectors.length == 1) = false := by simp [h1]
    have herase : (selectors.eraseIdx i).length = selectors.length - 1 := by
      rw [List.length_eraseIdx]
      simp [hi]
    refine ⟨fun hc => absurd hc h1, fun _ => ?_, ?_⟩
    · simp [deleteSelectorAction, hbeq, herase]
    · have hgoal : deleteSelectorAction selectors i = selectors.eraseIdx i := by
        simp [deleteSelectorAction, hbeq]
      rw [hgoal]
      intro hnil
      have hlen0 := congrArg List.length hnil
      rw [herase] at hlen0
      simp at hlen0
      omega

/-- Witness for delete_last_selector_noop: a one-element group is
untouched, a two-element group shrinks to one. -/
theorem delete_last_selector_noop_witness :
    deleteSelectorAction [newSelector "a"] 0 = [newSelector "a"] ∧
    (deleteSelectorAction [newSelector "a", newSelector "b"] 0).length = 1 := by
  have h1 := delete_last_selector_noop [newSelector "a"] 0 (by decide)
  have h2 := delete_last_selector_noop [newSelector "a", newSelector "b"] 0
    (by decide)
  exact ⟨h1.1 rfl, h2.2.1 (by decide)⟩

/-- The raw `remove(i)` of the selector field array, as react-hook-form
performs it: no minimum-length guard, the entry at index `i` is deleted. -/
def removeSelector (selectors : List Selector) (i : Nat) : List Selector :=
  selectors.eraseIdx i

/-- Claim C9: the removal operation itself carries no minimum-length
guard: at any valid position it deletes exactly the entry at that
position, keeping the remaining entries in relative order, and applied to
a one-element sequence it yields the empty sequence. -/
theorem remove_selector_unguarded (xs : List Selector) (i : Nat)
    (x : Selector) (hi : i < xs.length) :
    removeSelector xs i = xs.take i ++ xs.drop (i + 1) ∧
    (removeSelector xs i).length = xs.length - 1 ∧
    removeSelector [x] 0 = [] := by
  refine ⟨List.eraseIdx_eq_take_drop_succ xs i, ?_, rfl⟩
  rw [removeSelector, List.length_eraseIdx]
  simp [hi]

/-- Witness for remove_selector_unguarded at a concrete two-element
sequence. -/
theorem remove_selector_unguarded_witness :
    removeSelector [newSelector "a", newSelector "b"] 1 =
      [newSelector "a", newSelector "b"].take 1 ++
        [newSelector "a", newSelector "b"].drop 2 ∧
    removeSelector [newSelector "c"] 0 = [] := by
  have h := remove_selector_unguarded [newSelector "a", newSelector "b"] 1
    (newSelector "c") (by decide)
  exact ⟨h.1, h.2.2⟩

/-- The preview request built in the selector row's useMemo: a one-element
list holding a synthetic injection with the parent injection's id and
sourceField and only this selector. -/
def previewInputCompute (inj : Injection) (s : Selector) : List Injection :=
  [{ id := inj.id, sourceField := inj.sourceField, selectors := [s] }]

/-- The useMemo dependency triple
`[injection.sourceField, selector.cssSelector, selector.label]`. -/
def previewDeps (inj : Injection) (s : Selector) : String × String × String :=
  (inj.sourceField, s.cssSelector, s.label)

/-- A cached useMemo cell: the last dependency triple and the value
computed for it. -/
structure MemoState where
  deps : String × String × String
  value : List Injection
deriving DecidableEq, Repr

/-- One render's useMemo evaluation: when the dependency triple equals the
cached one, the cached value is reused (second component `false` = not
recomputed); otherwise the factory runs again and the cache is
replaced. -/
def previewMemoStep (prev : Option MemoState) (inj : Injection)
    (s : Selector) : MemoState × Bool :=
  match prev with
  | some m =>
      if m.deps = previewDeps inj s then (m, false)
      else ({ deps := previewDeps inj s,
              value := previewInputCompute inj s }, true)
  | none => ({ deps := previewDeps inj s,
               value := previewInputCompute inj s }, true)

/-- Claim C8: the preview input is the one-element list wrapping this
row's selector in a synthetic injection that borrows the parent's id and
sourceField, and the memoised value is recomputed exactly when the
dependency triple (parent sourceField, this cssSelector, this label)
changed. -/
theorem preview_input_shape_and_memo (inj : Injection) (s : Selector)
    (m : MemoState) :
    previewInputCompute inj s =
      [{ id := inj.id, sourceField := inj.sourceField, selectors := [s] }] ∧
    (m.deps = previewDeps inj s → previewMemoStep (some m) inj s = (m, false)) ∧
    (m.deps ≠ previewDeps inj s →
      previewMemoStep (some m) inj s =
        ({ deps := previewDeps inj s,
           value := previewInputCompute inj s }, true)) := by
  refine ⟨rfl, fun h => ?_, fun h => ?_⟩ <;> simp [previewMemoStep, h]

/-- Witness for preview_input_shape_and_memo: unchanged dependencies reuse
the cached cell, changed dependencies recompute. -/
theorem preview_input_shape_and_memo_witness :
    previewMemoStep
        (some { deps := ("title", "img", "img"),
                value := previewInputCompute validInjection
                  { id := "vs", label := "img", cssSelector := "img" } })
        validInjection { id := "vs", label := "img", cssSelector := "img" } =
      ({ deps := ("title", "img", "img"),
         value := previewInputCompute validInjection
           { id := "vs", label := "img", cssSelector := "img" } }, false) ∧
    previewMemoStep (some { deps := ("other", "a", "x"), value := [] })
        validInjection { id := "vs", label := "img", cssSelector := "img" } =
      ({ deps := previewDeps validInjection
           { id := "vs", label := "img", cssSelector := "img" },
         value := previewInputCompute validInjection
           { id := "vs", label := "img", cssSelector := "img" } }, true) := by
  have h1 := preview_input_shape_and_memo validInjection
    { id := "vs", label := "img", cssSelector := "img" }
    { deps := ("title", "img", "img"),
      value := previewInputCompute validInjection
        { id := "vs", label := "img", cssSelector := "img" } }
  have h2 := preview_input_shape_and_memo validInjection
    { id := "vs", label := "img", cssSelector := "img" }
    { deps := ("other", "a", "x"), value := [] }
  exact ⟨h1.2.1 (by decide), h2.2.2 (by decide)⟩

/-- A JSON-like value: the payload space of the REST layer. -/
inductive Json where
  | null
  | bool (b : Bool)
  | num (n : Int)
  | str (s : String)
  | arr (elems : List Json)
  | obj (fields : List (String × Json))
deriving Repr

mutual

/-- JSON.stringify over the modelled value space. -/
def Json.stringify : Json → String
  | Json.null => "null"
  | Json.bool true => "true"
  | Json.bool false => "false"
  | Json.num n => toString n
  | Json.str s => "\"" ++ s ++ "\""
  | Json.arr es => "[" ++ Json.stringifyElems es ++ "]"
  | Json.obj fs => "\x7b" ++ Json.stringifyFields fs ++ "\x7d"

/-- Serialization of an array's elements, comma separated. -/
def Json.stringifyElems : List Json → String
  | [] => ""
  | [x] => Json.stringify x
  | x :: y :: xs => Json.stringify x ++ "," ++ Json.stringifyElems (y :: xs)

/-- Serialization of an object's fields, comma separated. -/
def Json.stringifyFields : List (String × Json) → String
  | [] => ""
  | [(k, v)] => "\"" ++ k ++ "\":" ++ Json.stringify v
  | (k, v) :: y :: xs =>
      "\"" ++ k ++ "\":" ++ Json.stringify v ++ "," ++
        Json.stringifyFields (y :: xs)

end

/-- A single REST request as assembled by the client. -/
structure RestRequest where
  url : String
  method : String
  body : String
deriving Repr

/-- A transport-level response: HTTP status and parsed JSON body. -/
structure TransportResponse where
  status : Nat
  body : Json
deriving Repr

/-- Failure modes of a client call. -/
inductive FetchFailure where
  | badStatus (status : Nat)
  | schemaMismatch
deriving Repr

/-- Modelled from the spec: `fetchRest` (the shared transport helper in
src/utils/fetchRest, absent from this fragment) performs the single
described request, fails the call on a non-success transport status,
validates the response body against the supplied schema, and returns the
validated body on success; the first component records the requests
issued. -/
def fetchRest (transport : RestRequest → TransportResponse) (url : String)
    (method : String) (body : String) (validateSchema : Json → Bool) :
    List RestRequest × Except FetchFailure Json :=
  let req : RestRequest := { url := url, method := method, body := body }
  let resp := transport req
  if 200 ≤ resp.status ∧ resp.status < 300 then
    if validateSchema resp.body then ([req], Except.ok resp.body)
    else ([req], Except.error FetchFailure.schemaMismatch)
  else ([req], Except.error (FetchFailure.badStatus resp.status))

/-- Lookup of a JSON object field by key. -/
def jsonField (fields : List (String × Json)) (key : String) : Option Json :=
  match fields with
  | [] => none
  | (k, v) :: rest => if k == key then some v else jsonField rest key

/-- The `UpdatFeedOutputSchema` of updateFeed.ts: an object with a
`result` field matching the feed's full schema. `FeedSchema` lives
outside this fragment, so conformance to it is the parameter
`feedSchemaOk`. -/
def UpdatFeedOutputSchemaOk (feedSchemaOk : Json → Bool) (j : Json) : Bool :=
  match j with
  | Json.obj fields =>
      match jsonField fields "result" with
      | some r => feedSchemaOk r
      | none => false
  | _ => false

/-- The `updateFeed` client of updateFeed.ts: one `fetchRest` call with a
PATCH to the feed resource addressed by the feed id, the details object
serialized with JSON.stringify as the request body, and the response
validated against `UpdatFeedOutputSchema`. The details value is carried
as JSON (the source types it as an object with an optional `text` field;
serialization passes whatever fields the object holds through). -/
def updateFeed (transport : RestRequest → TransportResponse)
    (feedSchemaOk : Json → Bool) (feedId : String) (details : Json) :
    List RestRequest × Except FetchFailure Json :=
  fetchRest transport ("/api/v1/feeds/" ++ feedId) "PATCH"
    (Json.stringify details) (UpdatFeedOutputSchemaOk feedSchemaOk)

/-- Whether a client call returned a validated result. -/
def callOk (r : Except FetchFailure Json) : Bool :=
  match r with
  | Except.ok _ => true
  | Except.error _ => false

/-- Claim C5: updateFeed issues exactly one PATCH request to the feed
resource addressed by the given feed id, with the given details object
serialized as the request body; the call returns a result exactly when
the transport status is a success and the response is an object whose
`result` field matches the feed schema, and any returned result is the
response body itself. -/
theorem update_feed_contract (transport : RestRequest → TransportResponse)
    (feedSchemaOk : Json → Bool) (feedId : String) (details : Json) :
    (updateFeed transport feedSchemaOk feedId details).1 =
      [{ url := "/api/v1/feeds/" ++ feedId, method := "PATCH", body := Json.stringify details }] ∧
    (callOk (updateFeed transport feedSchemaOk feedId details).2 = true ↔
      (200 ≤ (transport { url := "/api/v1/feeds/" ++ feedId, method := "PATCH", body := Json.stringify details }).status ∧
          (transport { url := "/api/v1/feeds/" ++ feedId, method := "PATCH", body := Json.stringify details }).status < 300) ∧
        UpdatFeedOutputSchemaOk feedSchemaOk
          (transport { url := "/api/v1/feeds/" ++ feedId, method := "PATCH", body := Json.stringify details }).body = true) ∧
    (∀ j, (updateFeed transport feedSchemaOk feedId details).2 = Except.ok j →
      j = (transport { url := "/api/v1/feeds/" ++ feedId, method := "PATCH", body := Json.stringify details }).body) := by
  set req : RestRequest := { url := "/api/v1/feeds/" ++ feedId, method := "PATCH", body := Json.stringify details } with hreq
  by_cases hs : 200 ≤ (transport req).status ∧ (transport req).status < 300
  · by_cases hv : UpdatFeedOutputSchemaOk feedSchemaOk (transport req).body = true
    · refine ⟨?_, ?_, ?_⟩ <;> simp [updateFeed, fetchRest, hs, hv, callOk]
    · refine ⟨?_, ?_, ?_⟩ <;> simp [updateFeed, fetchRest, hs, hv, callOk]
  · refine ⟨?_, ?_, ?_⟩ <;> simp [updateFeed, fetchRest, hs, callOk]

/-- A transport that replies 200 with a body carrying a `result` field. -/
def okTransport : RestRequest → TransportResponse :=
  fun _ => { status := 200, body := Json.obj [("result", Json.null)] }

/-- Witness for update_feed_contract at a concrete transport, schema and
details value (one carrying an articleInjections list). -/
theorem update_feed_contract_witness :
    (updateFeed okTransport (fun _ => true) "f1"
        (Json.obj [("articleInjections", Json.arr [])])).1 =
      [{ url := "/api/v1/feeds/" ++ "f1", method := "PATCH", body := Json.stringify (Json.obj [("articleInjections", Json.arr [])]) }] ∧
    callOk (updateFeed okTransport (fun _ => true) "f1"
        (Json.obj [("articleInjections", Json.arr [])])).2 = true ∧
    Json.obj [("result", Json.null)] =
      (okTransport { url := "/api/v1/feeds/" ++ "f1", method := "PATCH", body := Json.stringify (Json.obj [("articleInjections", Json.arr [])]) }).body := by
  have h := update_feed_contract okTransport (fun _ => true) "f1"
    (Json.obj [("articleInjections", Json.arr [])])
  refine ⟨h.1, h.2.1.mpr ⟨by constructor <;> decide, rfl⟩, h.2.2 _ rfl⟩

end ArticleInjections
